import Mathlib

/-!
Verification development for `parse_fel_data.py` (Parse-Fel-Master-Data).

The program's text values are modelled as `List Char` (`PyStr`), mirroring
Python's view of `str` as a sequence of characters.  Python floats are
modelled as exact rationals (`ℚ`); every numeric value exercised in this
development is a short terminating decimal on which IEEE-754 arithmetic in
CPython is exact, so the model agrees with the program there.  The two
external effects (the `dovi_tool` subprocess and the MediaInfo probe) enter
the model as explicit inputs: the subprocess result is a pair of return code
and captured standard output, and the container metadata is a record of the
attributes the program reads.  `sys.exit`/`print`/file writes are modelled
by the `RunResult` record produced by `generate_info`.
-/

/-- Python strings as character lists. -/
abbrev PyStr := List Char

/-- Characters of a Lean string literal, used to write `PyStr` constants. -/
def strLit (s : String) : PyStr := s.data

/-- Python's notion of whitespace for `str.strip` and the regex class `\s`
(ASCII part: space, tab, newline, carriage return, vertical tab, form feed). -/
def pyIsSpace (c : Char) : Bool :=
  c = ' ' || c = '\t' || c = '\n' || c = '\r' || c = '\x0b' || c = '\x0c'

/-- Model of Python `str.strip()` (no argument): drop whitespace from both ends. -/
def pyStrip (s : PyStr) : PyStr :=
  ((s.dropWhile pyIsSpace).reverse.dropWhile pyIsSpace).reverse

/-- Model of Python `str.lower()` (ASCII case folding suffices for the inputs). -/
def pyToLower (s : PyStr) : PyStr := s.map Char.toLower

/-- Boolean list-prefix test (the building block for substring search). -/
def listPrefixOf : PyStr → PyStr → Bool
  | [], _ => true
  | _ :: _, [] => false
  | a :: as, b :: bs => a == b && listPrefixOf as bs

/-- Model of Python's substring operator `needle in hay`. -/
def containsSub (needle : PyStr) : PyStr → Bool
  | [] => listPrefixOf needle []
  | c :: t => listPrefixOf needle (c :: t) || containsSub needle t

/-- Fueled worker for `pySplit`; the fuel always suffices (one unit per
consumed character), it only makes the recursion structural. -/
def pySplitF (sep : PyStr) : Nat → PyStr → List PyStr
  | 0, s => [s]
  | fuel+1, s =>
    if !sep.isEmpty && listPrefixOf sep s then
      [] :: pySplitF sep fuel (s.drop sep.length)
    else
      match s with
      | [] => [[]]
      | c :: s' =>
        match pySplitF sep fuel s' with
        | [] => [[c]]
        | h :: t => (c :: h) :: t

/-- Model of Python `str.split(sep)` for a non-empty separator: leftmost,
non-overlapping splits; `"abc".split("X") = ["abc"]`, `"X".split("X") = ["", ""]`. -/
def pySplit (sep s : PyStr) : List PyStr := pySplitF sep (s.length + 1) s

/-- Line-break characters recognised by the model of `str.splitlines()`. -/
def isLineBreak (c : Char) : Bool := c = '\n' || c = '\r'

/-- Fueled worker for `pySplitlines`. -/
def pySplitlinesF : Nat → PyStr → List PyStr
  | 0, _ => []
  | fuel+1, s =>
    match s with
    | [] => []
    | _ :: _ =>
      let line := s.takeWhile (fun c => !isLineBreak c)
      match s.drop line.length with
      | [] => [line]
      | '\r' :: '\n' :: r => line :: pySplitlinesF fuel r
      | _ :: r => line :: pySplitlinesF fuel r

/-- Model of Python `str.splitlines()` restricted to the `\n`, `\r`, `\r\n`
boundaries (the ones that occur in tool output); a trailing break produces no
empty final line, matching Python. -/
def pySplitlines (s : PyStr) : List PyStr := pySplitlinesF (s.length + 1) s

/-- The decimal digit characters. -/
def digitChar : Nat → Char
  | 0 => '0' | 1 => '1' | 2 => '2' | 3 => '3' | 4 => '4'
  | 5 => '5' | 6 => '6' | 7 => '7' | 8 => '8' | _ => '9'

/-- Fueled worker for `natChars`. -/
def natCharsAux : Nat → Nat → List Char → List Char
  | 0, _, acc => acc
  | fuel+1, n, acc =>
    if n < 10 then digitChar n :: acc
    else natCharsAux fuel (n / 10) (digitChar (n % 10) :: acc)

/-- Decimal rendering of a natural number, as Python `str(int)` produces. -/
def natChars (n : Nat) : PyStr := natCharsAux (n + 1) n []

/-- Decimal rendering of an integer, as Python `str(int)` produces. -/
def intChars : Int → PyStr
  | .ofNat n => natChars n
  | .negSucc m => '-' :: natChars (m + 1)

/-- Mathematical floor of a rational, as Python `math.floor` computes on the
(exactly represented) float values in this development. -/
def ratFloor (q : ℚ) : Int := Int.fdiv q.num (q.den : Int)

/-- Floor of `q * 10000`, i.e. `math.floor(x * 10000)` evaluated exactly on
the rational value of the float `x` (written on the numerator to keep the
whole computation inside integer arithmetic). -/
def floorTimes10000 (q : ℚ) : Int := Int.fdiv (q.num * 10000) (q.den : Int)

/-- Value of a string of decimal digits. -/
def digitsToNat (ds : List Char) : Nat := ds.foldl (fun a c => 10 * a + (c.toNat - 48)) 0

/-- Model of Python `float(str)` on finite decimal literals (optional sign,
integer and fractional digits, optional exponent), returning the exact
rational value; `none` models `ValueError`.  (`inf`/`nan` literals and values
where double rounding would matter are outside the inputs of this program's
claims and are not modelled.) -/
def pyFloat (s0 : PyStr) : Option ℚ :=
  let s := pyStrip s0
  let sgnNeg : Bool := match s with | '-' :: _ => true | _ => false
  let s1 : PyStr := match s with
    | '+' :: r => r
    | '-' :: r => r
    | _ => s
  let ip := s1.takeWhile Char.isDigit
  let s2 := s1.drop ip.length
  let fp : PyStr := match s2 with
    | '.' :: r => r.takeWhile Char.isDigit
    | _ => []
  let s3 : PyStr := match s2 with
    | '.' :: r => r.drop (r.takeWhile Char.isDigit).length
    | _ => s2
  if ip.isEmpty && fp.isEmpty then none
  else
    let mantNum : Nat := digitsToNat ip * 10 ^ fp.length + digitsToNat fp
    let mantDen : Nat := 10 ^ fp.length
    let signedNum : Int := if sgnNeg then -(mantNum : Int) else (mantNum : Int)
    match s3 with
    | [] => some (mkRat signedNum mantDen)
    | e :: r =>
      if e = 'e' || e = 'E' then
        let expNeg : Bool := match r with | '-' :: _ => true | _ => false
        let r1 : PyStr := match r with
          | '+' :: r2 => r2
          | '-' :: r2 => r2
          | _ => r
        let ed := r1.takeWhile Char.isDigit
        if ed.isEmpty || ed.length ≠ r1.length then none
        else
          let k := digitsToNat ed
          some (if expNeg then mkRat signedNum (mantDen * 10 ^ k)
                else mkRat (signedNum * (10 ^ k : Nat)) mantDen)
      else none

/-- Fractional digits of a rational in `[0, 1)`, at most `fuel` of them
(digit extraction: multiply by ten, take the floor, keep the remainder). -/
def fracDigits : Nat → ℚ → List Char
  | 0, _ => []
  | fuel+1, f =>
    if f = 0 then []
    else
      let f10 : ℚ := mkRat (f.num * 10) f.den
      let d := ratFloor f10
      digitChar d.toNat :: fracDigits fuel (mkRat (f10.num - d * (f10.den : Int)) f10.den)

/-- Model of CPython `str(float)` for the short terminating decimals this
program handles (e.g. `str(1000.0) = "1000.0"`, `str(0.005) = "0.005"`). -/
def pyFloatRepr (q : ℚ) : PyStr :=
  let a : ℚ := mkRat (if q.num < 0 then -q.num else q.num) q.den
  let ipart := ratFloor a
  let ds := fracDigits 17 (mkRat (a.num - ipart * (a.den : Int)) a.den)
  (if q.num < 0 then ['-'] else []) ++ natChars ipart.toNat ++
    '.' :: (if ds.isEmpty then ['0'] else ds)

/-- Abstract syntax of the three regular expressions the program uses: a
literal piece, the single-character class `\s`, and the lazy capturing group
`(.+?)`.  `grpAcc` is the internal state of a partially matched group. -/
inductive RE where
  | lit : PyStr → RE
  | ws : RE
  | grp : RE
  | grpAcc : PyStr → RE

/-- Fueled backtracking matcher at a fixed start position, with Python's
strategy for `(.+?)`: try the shortest extension first, growing the group one
character at a time (never across `\n`, since `.` does not match a newline)
until the rest of the pattern matches.  Returns the list of captured groups. -/
def reM : Nat → List RE → PyStr → Option (List PyStr)
  | 0, _, _ => none
  | _+1, [], _ => some []
  | fuel+1, .lit l :: ps, s =>
    if listPrefixOf l s then reM fuel ps (s.drop l.length) else none
  | _+1, .ws :: _, [] => none
  | fuel+1, .ws :: ps, c :: s => if pyIsSpace c then reM fuel ps s else none
  | _+1, .grp :: _, [] => none
  | fuel+1, .grp :: ps, c :: s =>
    if c = '\n' then none else reM fuel (.grpAcc [c] :: ps) s
  | fuel+1, .grpAcc acc :: ps, s =>
    match reM fuel ps s with
    | some caps => some (acc.reverse :: caps)
    | none =>
      match s with
      | [] => none
      | c :: s' => if c = '\n' then none else reM fuel (.grpAcc (c :: acc) :: ps) s'

/-- Match a pattern at the start of `s` (fuel bounds the recursion depth,
which never exceeds `2*|s| + 2*|p| + 2`). -/
def reMatchHere (p : List RE) (s : PyStr) : Option (List PyStr) :=
  reM (2 * s.length + 2 * p.length + 2) p s

/-- Model of Python `re.search`: try each start position left to right. -/
def reSearch (p : List RE) : PyStr → Option (List PyStr)
  | [] => reMatchHere p []
  | c :: s =>
    match reMatchHere p (c :: s) with
    | some caps => some caps
    | none => reSearch p s

/-- The pattern `display:\s(.+?)/(.+?)\snits`. -/
def dispPattern : List RE :=
  [.lit (strLit "display:"), .ws, .grp, .lit (strLit "/"), .grp, .ws, .lit (strLit "nits")]

/-- The pattern `MaxCLL:\s(.+?)\snits,\sMaxFALL:\s(.+?)\snits`. -/
def cllPattern : List RE :=
  [.lit (strLit "MaxCLL:"), .ws, .grp, .ws, .lit (strLit "nits,"), .ws,
   .lit (strLit "MaxFALL:"), .ws, .grp, .ws, .lit (strLit "nits")]

/-- The pattern `min:\s(.+?)\scd/m2,\smax:\s(.+?)\scd/m2`. -/
def mdlPattern : List RE :=
  [.lit (strLit "min:"), .ws, .grp, .ws, .lit (strLit "cd/m2,"), .ws,
   .lit (strLit "max:"), .ws, .grp, .ws, .lit (strLit "cd/m2")]

/-- The Python exceptions observable in this program: the expected
`ParseFelDataError` and the unexpected `IndexError` / `AttributeError` /
`ValueError`, each carrying its `str(exception)` message. -/
inductive PyExn where
  | felError : PyStr → PyExn
  | indexError : PyStr → PyExn
  | attributeError : PyStr → PyExn
  | valueError : PyStr → PyExn
deriving DecidableEq

/-- The MediaInfo attributes of one video track that the program reads
(`none` models the attribute being `None`). -/
structure VideoTrack where
  mastering_display_color_primaries : Option PyStr
  mastering_display_luminance : Option PyStr
deriving DecidableEq

/-- The container metadata the program reads: the list of video tracks. -/
structure MediaInfoModel where
  video_tracks : List VideoTrack
deriving DecidableEq

/-- Python truthiness of an optional string attribute
(`None` and `""` are falsy). -/
def pyTruthyOpt : Option PyStr → Bool
  | none => false
  | some s => !s.isEmpty

/-- The hard-coded Display P3 master-display template. -/
def displayP3Template : PyStr :=
  strLit "G(13250,34500)B(7500,3000)R(34000,16000)WP(15635,16450)L(\x7bmaximum_luma\x7d,\x7bminimum_luma\x7d)"

/-- The hard-coded DCI P3 master-display template. -/
def dciP3Template : PyStr :=
  strLit "G(13250,34500)B(7500,3000)R(34000,16000)WP(15700,17550)L(\x7bmaximum_luma\x7d,\x7bminimum_luma\x7d)"

/-- The hard-coded BT.2020 master-display template. -/
def bt2020Template : PyStr :=
  strLit "G(8500,39850)B(6550,2300)R(35400,14600)WP(15635,16450)L(\x7bmaximum_luma\x7d,\x7bminimum_luma\x7d)"

/-- The case-insensitive substring precedence of `detect_master_display`
(lines 95-116 of the source): `"display p3"`, then `"dci p3"`, then
`"bt.2020"`, else the unsupported-primaries error. -/
def choose_master_display (primaries : PyStr) (mi_mdl_low mi_mdl_high : Int) :
    Except PyExn (PyStr × Int × Int) :=
  if containsSub (strLit "display p3") primaries then
    .ok (displayP3Template, mi_mdl_low, mi_mdl_high)
  else if containsSub (strLit "dci p3") primaries then
    .ok (dciP3Template, mi_mdl_low, mi_mdl_high)
  else if containsSub (strLit "bt.2020") primaries then
    .ok (bt2020Template, mi_mdl_low, mi_mdl_high)
  else
    .error (.felError (strLit "Video doesn\x27t appear to need a master-display string..."))

/-- Body of `detect_master_display` (the code inside its `try` block).
Accessing track 0 of an empty track list raises `IndexError`; a missing
primaries or luminance attribute raises `ParseFelDataError`; `group()` on a
failed `re.search` raises `AttributeError`; `float()` on a non-numeric group
raises `ValueError`; otherwise the template chosen by case-insensitive
substring matching is returned with the floored, scaled luminance pair. -/
def detect_body (mi : MediaInfoModel) : Except PyExn (PyStr × Int × Int) :=
  match mi.video_tracks with
  | [] => .error (.indexError (strLit "list index out of range"))
  | track :: _ =>
    if !pyTruthyOpt track.mastering_display_color_primaries then
      .error (.felError (strLit "Input file doesn\x27t contain any mastering display color primary data"))
    else if !pyTruthyOpt track.mastering_display_luminance then
      .error (.felError (strLit "MediaInfo is lacking MDL values"))
    else
      match reSearch mdlPattern (track.mastering_display_luminance.getD []) with
      | none => .error (.attributeError (strLit "\x27NoneType\x27 object has no attribute \x27group\x27"))
      | some caps =>
        match pyFloat (caps.getD 0 []) with
        | none => .error (.valueError (strLit "could not convert string to float"))
        | some q1 =>
          match pyFloat (caps.getD 1 []) with
          | none => .error (.valueError (strLit "could not convert string to float"))
          | some q2 =>
            choose_master_display
              (pyToLower (track.mastering_display_color_primaries.getD []))
              (floorTimes10000 q1) (floorTimes10000 q2)

/-- Model of `detect_master_display`: the body with its `except IndexError` handler,
which converts a raised `IndexError` into a `ParseFelDataError`. -/
def detect_master_display (mi : MediaInfoModel) : Except PyExn (PyStr × Int × Int) :=
  match detect_body mi with
  | .error (.indexError _) => .error (.felError (strLit "Input file is lacking a \x27video track\x27"))
  | .error e => .error e
  | .ok v => .ok v

/-- The message of the non-zero-exit-code `ParseFelDataError`. -/
def toolErrorMsg (returncode : Int) : PyStr :=
  strLit "Failed to execute command with dovi_tool (error code: " ++ intChars returncode ++ strLit ")"

/-- The literal the tool output is split on. -/
def summaryMarker : PyStr := strLit "Summary:\n"

/-- Model of `get_output.stdout.split("Summary:\n")[1]`, with `none` modelling the
`IndexError` when the marker is absent. -/
def summaryPart (toolStdout : PyStr) : Option PyStr :=
  (pySplit summaryMarker toolStdout)[1]?

/-- One iteration of the summary-scanning loop: strip the line, append it to
the accumulated summary, and remember it if it mentions either marker
(later occurrences overwrite earlier ones, as in the program). -/
def scanStep (st : PyStr × PyStr × PyStr) (item0 : PyStr) : PyStr × PyStr × PyStr :=
  let item := pyStrip item0
  let full := st.1 ++ item ++ ['\n']
  if containsSub (strLit "RPU mastering display") item then (full, item, st.2.2)
  else if containsSub (strLit "RPU content light level") item then (full, st.2.1, item)
  else (full, st.2.1, st.2.2)

/-- The whole scanning loop, from the empty initial state. -/
def scanSummary (lines : List PyStr) : PyStr × PyStr × PyStr :=
  lines.foldl scanStep ([], [], [])

/-- The two `float(...)` conversions applied to a regex result: a failed
search leaves both values `None`; a successful search converts both groups,
where a non-numeric group raises `ValueError`. -/
def floatPair (caps : Option (List PyStr)) : Except PyExn (Option ℚ × Option ℚ) :=
  match caps with
  | none => .ok (none, none)
  | some cs =>
    match pyFloat (cs.getD 0 []) with
    | none => .error (.valueError (strLit "could not convert string to float"))
    | some a =>
      match pyFloat (cs.getD 1 []) with
      | none => .error (.valueError (strLit "could not convert string to float"))
      | some b => .ok (some a, some b)

/-- Python falsiness of an optional float: `None` and `0.0` are falsy. -/
def pyFalsy : Option ℚ → Bool
  | none => true
  | some q => q == 0

/-- A field of the incomplete-metadata message:
the falsy-or-value f-string field of the error message. -/
def renderVal (v : Option ℚ) : PyStr :=
  if pyFalsy v then strLit "Not Found" else pyFloatRepr (v.getD 0)

/-- The incomplete-metadata error message. -/
def incompleteMsg (a b c d : Option ℚ) : PyStr :=
  strLit "One or more of the values could not be detected from the input file (min-luma: " ++
    renderVal a ++ strLit ", max-luma: " ++ renderVal b ++ strLit ", max-cll: " ++
    renderVal c ++ strLit ", max-fall: " ++ renderVal d ++ strLit ")"

/-- Model of `parse_dovi_tool_output`, taking the subprocess result (return code and
captured standard output) as input.  Fails with `ParseFelDataError` on a
non-zero exit code, raises `IndexError` when the `Summary:\n` marker is
absent, fails when either marker line is missing, and fails with the
incomplete-metadata error when any of the four values is `None` or `0.0`;
otherwise returns the two scaled-and-floored luma values, the floored light
levels and the stripped summary text. -/
def parse_dovi_tool_output (returncode : Int) (toolStdout : PyStr) :
    Except PyExn (Int × Int × Int × Int × PyStr) :=
  if returncode ≠ 0 then .error (.felError (toolErrorMsg returncode))
  else
    match summaryPart toolStdout with
    | none => .error (.indexError (strLit "list index out of range"))
    | some part =>
      match scanSummary (pySplitlines (pyStrip part)) with
      | (full_summary, rpu_mastering_display, rpu_content_light_level) =>
        if rpu_mastering_display.isEmpty || rpu_content_light_level.isEmpty then
          .error (.felError (strLit "Failed to detect \x27RPU mastering display\x27 or \x27RPU content light level\x27"))
        else
          match floatPair (reSearch dispPattern rpu_mastering_display) with
          | .error e => .error e
          | .ok (minimum_luma, maximum_luma) =>
            match floatPair (reSearch cllPattern rpu_content_light_level) with
            | .error e => .error e
            | .ok (maximum_cll, maximum_fall) =>
              if pyFalsy minimum_luma || pyFalsy maximum_luma ||
                  pyFalsy maximum_cll || pyFalsy maximum_fall then
                .error (.felError (incompleteMsg minimum_luma maximum_luma maximum_cll maximum_fall))
              else
                .ok (floorTimes10000 (minimum_luma.getD 0),
                     floorTimes10000 (maximum_luma.getD 0),
                     ratFloor (maximum_cll.getD 0),
                     ratFloor (maximum_fall.getD 0),
                     pyStrip full_summary)

/-- Fueled worker for `replaceAll`. -/
def replaceAllF (pat sub : PyStr) : Nat → PyStr → PyStr
  | 0, s => s
  | _+1, [] => []
  | fuel+1, c :: s' =>
    if !pat.isEmpty && listPrefixOf pat (c :: s') then
      sub ++ replaceAllF pat sub fuel ((c :: s').drop pat.length)
    else
      c :: replaceAllF pat sub fuel s'

/-- Leftmost non-overlapping replacement of `pat` by `sub`. -/
def replaceAll (pat sub s : PyStr) : PyStr := replaceAllF pat sub (s.length + 1) s

/-- Model of `master_display.format(maximum_luma=..., minimum_luma=...)`: substitute the
two named placeholders of a template (each occurs once, and the substituted
digits contain no brace, so sequential replacement models `str.format`). -/
def pyFormat_master_display (template : PyStr) (maximum_luma minimum_luma : Int) : PyStr :=
  replaceAll (strLit "\x7bminimum_luma\x7d") (intChars minimum_luma)
    (replaceAll (strLit "\x7bmaximum_luma\x7d") (intChars maximum_luma) template)

/-- The literal difference-warning line. -/
def warningLine : PyStr :=
  strLit "(detected a difference, be sure to use the \x27Generated Values\x27 below)"

/-- The first two lines of the `mi_rpu_diff` block:
`f"MediaInfo: {mi_mdl_low}/{mi_mdl_high}\nRPU: {minimum_luma}/{maximum_luma}"`. -/
def mi_rpu_diff_base (mi_mdl_low mi_mdl_high minimum_luma maximum_luma : Int) : PyStr :=
  strLit "MediaInfo: " ++ intChars mi_mdl_low ++ strLit "/" ++ intChars mi_mdl_high ++
    strLit "\nRPU: " ++ intChars minimum_luma ++ strLit "/" ++ intChars maximum_luma

/-- The module-level report template `final_str` with its five fields
substituted, exactly as `final_str.format(...)` produces. -/
def final_str_format (summary mi_rpu_diff : PyStr) (maximum_cll maximum_fall : Int)
    (master_display : PyStr) : PyStr :=
  strLit "Dovi_tool Summary:\n" ++ summary ++
    strLit "\n\nMediaInfo/RPU Luminance:\n" ++ mi_rpu_diff ++
    strLit "\n\nGenerated Values:\nMaximum CLL: " ++ intChars maximum_cll ++
    strLit "\nMaximum FALL: " ++ intChars maximum_fall ++
    strLit "\nMaster Display: " ++ master_display

/-- The observable outcome of one run of `generate_info`: the text passed to
the single `print` call on that path, the process exit status, and the
sidecar file write (name and contents), if any. -/
structure RunResult where
  printed : PyStr
  exitCode : Nat
  saved : Option (PyStr × PyStr)
deriving DecidableEq

/-- The two `except` clauses of `generate_info`: a `ParseFelDataError` is
printed verbatim; any other exception is printed with the generic prefix.
Both paths exit with status 1 and write nothing. -/
def handleErr (e : PyExn) : RunResult :=
  match e with
  | .felError m => ⟨m, 1, none⟩
  | .indexError m => ⟨strLit "There was an unexpected error: " ++ m, 1, none⟩
  | .attributeError m => ⟨strLit "There was an unexpected error: " ++ m, 1, none⟩
  | .valueError m => ⟨strLit "There was an unexpected error: " ++ m, 1, none⟩

/-- Model of `generate_info`: parse the tool output, derive the master display,
substitute the template, build the `mi_rpu_diff` block (with the warning line
appended exactly when either pair component differs), compose the final
report, optionally save it beside the video, print it and exit 0; any raised
exception is handled by `handleErr`.  `stem` is `file_input.stem`. -/
def generate_info (returncode : Int) (toolStdout : PyStr) (mi : MediaInfoModel)
    (save : Bool) (stem : PyStr) : RunResult :=
  match parse_dovi_tool_output returncode toolStdout with
  | .error e => handleErr e
  | .ok (minimum_luma, maximum_luma, maximum_cll, maximum_fall, summary) =>
    match detect_master_display mi with
    | .error e => handleErr e
    | .ok (template, mi_mdl_low, mi_mdl_high) =>
      let master_display := pyFormat_master_display template maximum_luma minimum_luma
      let base := mi_rpu_diff_base mi_mdl_low mi_mdl_high minimum_luma maximum_luma
      let mi_rpu_diff :=
        if minimum_luma ≠ mi_mdl_low ∨ maximum_luma ≠ mi_mdl_high then
          base ++ '\n' :: warningLine
        else base
      let final := final_str_format summary mi_rpu_diff maximum_cll maximum_fall master_display
      ⟨final, 0, if save then some (stem ++ strLit "_fel_data.txt", final) else none⟩

/-! ### Concrete inputs shared by several witnesses and counterexamples -/

/-- A well-formed tool output with a non-zero minimum luma (`0.0050` nits). -/
def exampleStdout : PyStr :=
  strLit "Summary:\n RPU mastering display: 0.0050/1000.0000 nits\nRPU content light level: MaxCLL: 1000 nits, MaxFALL: 400 nits\n"

/-- The stripped summary text produced from `exampleStdout`. -/
def exampleSummary : PyStr :=
  strLit "RPU mastering display: 0.0050/1000.0000 nits\nRPU content light level: MaxCLL: 1000 nits, MaxFALL: 400 nits"

/-- Container metadata whose luminance pair matches `exampleStdout`. -/
def exampleMI : MediaInfoModel :=
  ⟨[⟨some (strLit "BT.2020"), some (strLit "min: 0.0050 cd/m2, max: 1000 cd/m2")⟩]⟩

/-- Container metadata whose luminance pair differs from `exampleStdout`. -/
def exampleDiffMI : MediaInfoModel :=
  ⟨[⟨some (strLit "BT.2020"), some (strLit "min: 0.0001 cd/m2, max: 4000 cd/m2")⟩]⟩

/-! ### General helper lemmas about the text model -/

/-- The Boolean list-prefix test agrees with `List.IsPrefix`. -/
theorem listPrefixOf_eq_true (a b : PyStr) : listPrefixOf a b = true ↔ a <+: b := by
  induction a generalizing b with
  | nil => simp [listPrefixOf, List.nil_prefix]
  | cons x as ih =>
    cases b with
    | nil => simp [listPrefixOf]
    | cons y bs => simp [listPrefixOf, ih, List.cons_prefix_cons]

/-- The Boolean substring test agrees with `List.IsInfix`. -/
theorem containsSub_eq_true (n h : PyStr) : containsSub n h = true ↔ n <:+: h := by
  induction h with
  | nil => simp [containsSub, listPrefixOf_eq_true, List.infix_nil, List.prefix_nil]
  | cons c t ih =>
    simp only [containsSub, Bool.or_eq_true, listPrefixOf_eq_true, ih, List.infix_cons_iff]

/-- A prefix of `a ++ c :: b` avoiding `c` is already a prefix of `a`. -/
theorem prefix_through_sep {c : Char} {p : List Char} (hc : c ∉ p) :
    ∀ {a b : List Char}, p <+: a ++ c :: b → p <+: a := by
  intro a
  induction a generalizing p with
  | nil =>
    intro b h
    rcases List.prefix_cons_iff.mp h with h0 | ⟨t, ht, _⟩
    · simp [h0, List.nil_prefix]
    · exact absurd (ht ▸ List.mem_cons_self c t) hc
  | cons x a' ih =>
    intro b h
    rcases List.prefix_cons_iff.mp h with h0 | ⟨t, ht, htp⟩
    · simp [h0, List.nil_prefix]
    · subst ht
      exact List.cons_prefix_cons.mpr
        ⟨rfl, ih (fun hm => hc (List.mem_cons_of_mem _ hm)) htp⟩

/-- An infix of `a ++ c :: b` avoiding `c` lies inside `a` or inside `b`. -/
theorem infix_through_sep {c : Char} {w : List Char} (hc : c ∉ w) :
    ∀ {a b : List Char}, w <:+: a ++ c :: b → w <:+: a ∨ w <:+: b := by
  intro a
  induction a with
  | nil =>
    intro b h
    rcases List.infix_cons_iff.mp h with hpre | hinf
    · rcases List.prefix_cons_iff.mp hpre with h0 | ⟨t, ht, _⟩
      · left; simp [h0]
      · exact absurd (ht ▸ List.mem_cons_self c t) hc
    · right; exact hinf
  | cons x a' ih =>
    intro b h
    have h' : w <:+: x :: (a' ++ c :: b) := h
    rcases List.infix_cons_iff.mp h' with hpre | hinf
    · left
      exact (prefix_through_sep hc (a := x :: a') hpre).isInfix
    · rcases ih hinf with h1 | h2
      · left; exact List.infix_cons h1
      · right; exact h2

/-- Python `str.split(sep)` on a string that does not contain `sep` returns the
whole string as the single list element. -/
theorem pySplitF_no_marker (sep : PyStr) :
    ∀ (fuel : Nat) (s : PyStr), s.length < fuel → ¬ sep <:+: s →
      pySplitF sep fuel s = [s] := by
  intro fuel
  induction fuel with
  | zero => intro s h; omega
  | succ f ih =>
    intro s hlen hinf
    have hpre : listPrefixOf sep s = false := by
      cases hq : listPrefixOf sep s
      · rfl
      · exact absurd ((listPrefixOf_eq_true sep s).mp hq).isInfix hinf
    cases s with
    | nil => simp [pySplitF, hpre]
    | cons ch s' =>
      have hs' : pySplitF sep f s' = [s'] := by
        refine ih s' (by simp only [List.length_cons] at hlen; omega) ?_
        exact fun hx => hinf (List.infix_cons hx)
      simp [pySplitF, hpre, hs']

/-- Top-level version of `pySplitF_no_marker`. -/
theorem pySplit_no_marker (sep s : PyStr) (h : ¬ sep <:+: s) : pySplit sep s = [s] :=
  pySplitF_no_marker sep (s.length + 1) s (Nat.lt_succ_self _) h

/-- Every digit character is one of the ten digits. -/
theorem digitChar_mem (n : Nat) :
    digitChar n ∈ ['0', '1', '2', '3', '4', '5', '6', '7', '8', '9'] := by
  unfold digitChar
  split <;> decide

/-- Characters produced by `natCharsAux` come from the accumulator or are digits. -/
theorem natCharsAux_chars :
    ∀ (fuel n : Nat) (acc : List Char) (c : Char), c ∈ natCharsAux fuel n acc →
      c ∈ acc ∨ ∃ m, c = digitChar m := by
  intro fuel
  induction fuel with
  | zero => intro n acc c h; exact Or.inl h
  | succ f ih =>
    intro n acc c h
    rw [natCharsAux] at h
    split at h
    · rcases List.mem_cons.mp h with h | h
      · exact Or.inr ⟨n, h⟩
      · exact Or.inl h
    · rcases ih (n / 10) (digitChar (n % 10) :: acc) c h with h | h
      · rcases List.mem_cons.mp h with h | h
        · exact Or.inr ⟨n % 10, h⟩
        · exact Or.inl h
      · exact Or.inr h

/-- Every character of a rendered integer is a digit or the minus sign. -/
theorem intChars_chars (i : Int) (c : Char) (h : c ∈ intChars i) :
    c = '-' ∨ ∃ m, c = digitChar m := by
  cases i with
  | ofNat n =>
    rcases natCharsAux_chars (n + 1) n [] c h with h | h
    · cases h
    · exact Or.inr h
  | negSucc m =>
    rcases List.mem_cons.mp h with h | h
    · exact Or.inl h
    · rcases natCharsAux_chars (m + 1 + 1) (m + 1) [] c h with h | h
      · cases h
      · exact Or.inr h

/-- The letter `w` never occurs in a rendered integer. -/
theorem intChars_ne_w (i : Int) (h : 'w' ∈ intChars i) : False := by
  rcases intChars_chars i 'w' h with h | ⟨m, h⟩
  · exact absurd h (by decide)
  · have := digitChar_mem m
    rw [← h] at this
    revert this
    decide

/-- A newline never occurs in a rendered integer. -/
theorem intChars_ne_nl (i : Int) (h : '\n' ∈ intChars i) : False := by
  rcases intChars_chars i '\n' h with h | ⟨m, h⟩
  · exact absurd h (by decide)
  · have := digitChar_mem m
    rw [← h] at this
    revert this
    decide

/-- Characters produced by `replaceAllF` come from the subject or from the
substitution. -/
theorem replaceAllF_chars (pat sub : PyStr) :
    ∀ (fuel : Nat) (s : PyStr) (c : Char), c ∈ replaceAllF pat sub fuel s →
      c ∈ s ∨ c ∈ sub := by
  intro fuel
  induction fuel with
  | zero => intro s c h; exact Or.inl h
  | succ f ih =>
    intro s c h
    cases s with
    | nil => rw [replaceAllF] at h; cases h
    | cons x s' =>
      rw [replaceAllF] at h
      split at h
      · rcases List.mem_append.mp h with h | h
        · exact Or.inr h
        · rcases ih _ c h with h | h
          · exact Or.inl (List.drop_subset _ _ h)
          · exact Or.inr h
      · rcases List.mem_cons.mp h with h | h
        · exact Or.inl (h ▸ List.mem_cons_self x s')
        · rcases ih s' c h with h | h
          · exact Or.inl (List.mem_cons_of_mem _ h)
          · exact Or.inr h

/-- Characters of a substituted master-display template come from the
template or from the two rendered integers. -/
theorem pyFormat_master_display_chars (template : PyStr) (maximum_luma minimum_luma : Int)
    (c : Char) (h : c ∈ pyFormat_master_display template maximum_luma minimum_luma) :
    c ∈ template ∨ c ∈ intChars maximum_luma ∨ c ∈ intChars minimum_luma := by
  unfold pyFormat_master_display replaceAll at h
  rcases replaceAllF_chars _ _ _ _ c h with h | h
  · rcases replaceAllF_chars _ _ _ _ c h with h | h
    · exact Or.inl h
    · exact Or.inr (Or.inl h)
  · exact Or.inr (Or.inr h)

/-- A successful `choose_master_display` returns one of the three
hard-coded templates. -/
theorem choose_template (primaries : PyStr) (lo hi : Int) (v : PyStr × Int × Int)
    (h : choose_master_display primaries lo hi = .ok v) :
    v.1 = displayP3Template ∨ v.1 = dciP3Template ∨ v.1 = bt2020Template := by
  unfold choose_master_display at h
  split at h
  · exact Or.inl (by simp only [Except.ok.injEq] at h; rw [← h])
  split at h
  · exact Or.inr (Or.inl (by simp only [Except.ok.injEq] at h; rw [← h]))
  split at h
  · exact Or.inr (Or.inr (by simp only [Except.ok.injEq] at h; rw [← h]))
  · exact absurd h (by simp)

/-- A successful `detect_master_display` returns one of the three
hard-coded templates. -/
theorem detect_template (mi : MediaInfoModel) (template : PyStr) (lo hi : Int)
    (h : detect_master_display mi = .ok (template, lo, hi)) :
    template = displayP3Template ∨ template = dciP3Template ∨ template = bt2020Template := by
  unfold detect_master_display at h
  cases hb : detect_body mi with
  | error e => rw [hb] at h; cases e <;> simp at h
  | ok v =>
    rw [hb] at h
    simp only [Except.ok.injEq] at h
    unfold detect_body at hb
    split at hb
    · exact absurd hb (by simp)
    split at hb
    · exact absurd hb (by simp)
    split at hb
    · exact absurd hb (by simp)
    split at hb
    · exact absurd hb (by simp)
    split at hb
    · exact absurd hb (by simp)
    split at hb
    · exact absurd hb (by simp)
    · have hv := choose_template _ _ _ v hb
      rw [h] at hv
      simpa using hv

/-- The warning line cannot be an infix of a text missing the letter `w`. -/
theorem warning_not_infix_aux {seg : PyStr} (h : 'w' ∉ seg) : ¬ warningLine <:+: seg :=
  fun hinf => h (hinf.subset (by decide))

/-- The letter `w` does not occur in `p ++ intChars i` when it is not in `p`. -/
theorem w_notin_two (p : PyStr) (hp : 'w' ∉ p) (i : Int) : 'w' ∉ p ++ intChars i := by
  intro h
  rcases List.mem_append.mp h with h | h
  · exact hp h
  · exact intChars_ne_w i h

/-- The letter `w` does not occur in a `label ++ num ++ "/" ++ num` line. -/
theorem w_notin_numline (p : PyStr) (hp : 'w' ∉ p) (i j : Int) :
    'w' ∉ p ++ intChars i ++ '/' :: intChars j := by
  intro h
  rcases List.mem_append.mp h with h | h
  · exact w_notin_two p hp i h
  · rcases List.mem_cons.mp h with h | h
    · exact absurd h (by decide)
    · exact intChars_ne_w j h

/-- The composed report, on the no-warning path, regrouped as a chain of
newline-separated segments. -/
theorem report_decomp (summary : PyStr) (a b c d cll fall : Int) (m : PyStr) :
    final_str_format summary (mi_rpu_diff_base a b c d) cll fall m =
      strLit "Dovi_tool Summary:" ++ '\n' ::
        (summary ++ '\n' ::
          ([] ++ '\n' ::
            (strLit "MediaInfo/RPU Luminance:" ++ '\n' ::
              ((strLit "MediaInfo: " ++ intChars a ++ '/' :: intChars b) ++ '\n' ::
                ((strLit "RPU: " ++ intChars c ++ '/' :: intChars d) ++ '\n' ::
                  ([] ++ '\n' ::
                    (strLit "Generated Values:" ++ '\n' ::
                      ((strLit "Maximum CLL: " ++ intChars cll) ++ '\n' ::
                        ((strLit "Maximum FALL: " ++ intChars fall) ++ '\n' ::
                          (strLit "Master Display: " ++ m)))))))))) := by
  have e1 : strLit "Dovi_tool Summary:\n" = strLit "Dovi_tool Summary:" ++ ['\n'] := rfl
  have e2 : strLit "\n\nMediaInfo/RPU Luminance:\n" =
      ['\n'] ++ ['\n'] ++ strLit "MediaInfo/RPU Luminance:" ++ ['\n'] := rfl
  have e3 : strLit "\n\nGenerated Values:\nMaximum CLL: " =
      ['\n'] ++ ['\n'] ++ strLit "Generated Values:" ++ ['\n'] ++ strLit "Maximum CLL: " := rfl
  have e4 : strLit "\nMaximum FALL: " = ['\n'] ++ strLit "Maximum FALL: " := rfl
  have e5 : strLit "\nMaster Display: " = ['\n'] ++ strLit "Master Display: " := rfl
  have e6 : strLit "/" = ['/'] := rfl
  have e7 : strLit "\nRPU: " = ['\n'] ++ strLit "RPU: " := rfl
  rw [final_str_format, mi_rpu_diff_base, e1, e2, e3, e4, e5, e6, e7]
  simp only [List.append_assoc, List.cons_append, List.singleton_append, List.nil_append]

/-- On a run where the container pair equals the RPU pair, the composed
report does not contain the warning line (provided the tool summary itself
does not contain it and the master-display string has no `w`). -/
theorem no_warning_when_equal (summary m : PyStr) (a b c d cll fall : Int)
    (hs : ¬ warningLine <:+: summary) (hm : 'w' ∉ m) :
    ¬ warningLine <:+: final_str_format summary (mi_rpu_diff_base a b c d) cll fall m := by
  intro h
  rw [report_decomp] at h
  have hw : ('\n' : Char) ∉ warningLine := by decide
  rcases infix_through_sep hw h with h | h
  · exact warning_not_infix_aux (by decide) h
  rcases infix_through_sep hw h with h | h
  · exact hs h
  rcases infix_through_sep hw h with h | h
  · exact warning_not_infix_aux (by decide) h
  rcases infix_through_sep hw h with h | h
  · exact warning_not_infix_aux (by decide) h
  rcases infix_through_sep hw h with h | h
  · exact warning_not_infix_aux (w_notin_numline _ (by decide) a b) h
  rcases infix_through_sep hw h with h | h
  · exact warning_not_infix_aux (w_notin_numline _ (by decide) c d) h
  rcases infix_through_sep hw h with h | h
  · exact warning_not_infix_aux (by decide) h
  rcases infix_through_sep hw h with h | h
  · exact warning_not_infix_aux (by decide) h
  rcases infix_through_sep hw h with h | h
  · exact warning_not_infix_aux (w_notin_two _ (by decide) cll) h
  rcases infix_through_sep hw h with h | h
  · exact warning_not_infix_aux (w_notin_two _ (by decide) fall) h
  · refine warning_not_infix_aux ?_ h
    intro hmem
    rcases List.mem_append.mp hmem with hmem | hmem
    · exact absurd hmem (by decide)
    · exact hm hmem

/-! ### Claim theorems -/

/-- C3: for every subprocess result with a non-zero return code,
`parse_dovi_tool_output` raises the tool-execution-failed `ParseFelDataError`
carrying that exit code, independently of the captured standard output (no
parsing of it is attempted), and `generate_info` prints exactly that message
and terminates with exit status 1, writing no file. -/
theorem claim_c3_tool_failure (returncode : Int) (toolStdout : PyStr)
    (mi : MediaInfoModel) (save : Bool) (stem : PyStr) (h : returncode ≠ 0) :
    parse_dovi_tool_output returncode toolStdout = .error (.felError (toolErrorMsg returncode)) ∧
    generate_info returncode toolStdout mi save stem = ⟨toolErrorMsg returncode, 1, none⟩ := by
  have hp : parse_dovi_tool_output returncode toolStdout =
      .error (.felError (toolErrorMsg returncode)) := by
    simp [parse_dovi_tool_output, h]
  exact ⟨hp, by simp [generate_info, hp, handleErr]⟩

/-- C3 witness at return code 1. -/
theorem claim_c3_tool_failure_witness :
    parse_dovi_tool_output 1 [] =
      .error (.felError (strLit "Failed to execute command with dovi_tool (error code: 1)")) ∧
    generate_info 1 [] ⟨[]⟩ true [] =
      ⟨strLit "Failed to execute command with dovi_tool (error code: 1)", 1, none⟩ := by
  have h := claim_c3_tool_failure 1 [] ⟨[]⟩ true [] (by decide)
  have e : toolErrorMsg 1 = strLit "Failed to execute command with dovi_tool (error code: 1)" := by
    decide
  rw [e] at h
  exact h

/-- C4: on every successful run invoked with the save flag, the contents
written to the sidecar file `<stem>_fel_data.txt` are exactly the text
passed to `print`. -/
theorem claim_c4_roundtrip (returncode : Int) (toolStdout : PyStr) (mi : MediaInfoModel)
    (stem : PyStr) (h : (generate_info returncode toolStdout mi true stem).exitCode = 0) :
    (generate_info returncode toolStdout mi true stem).saved =
      some (stem ++ strLit "_fel_data.txt",
        (generate_info returncode toolStdout mi true stem).printed) := by
  cases hp : parse_dovi_tool_output returncode toolStdout with
  | error e =>
    exfalso
    rw [generate_info, hp] at h
    cases e <;> simp [handleErr] at h
  | ok v =>
    obtain ⟨minL, maxL, cll, fall, summary⟩ := v
    cases hd : detect_master_display mi with
    | error e =>
      exfalso
      rw [generate_info, hp] at h
      rw [hd] at h
      cases e <;> simp [handleErr] at h
    | ok w =>
      obtain ⟨tpl, lo, hi⟩ := w
      simp [generate_info, hp, hd]

set_option maxRecDepth 100000 in
/-- C4 witness: a complete successful saved run on concrete inputs. -/
theorem claim_c4_roundtrip_witness :
    (generate_info 0 exampleStdout exampleMI true (strLit "video")).exitCode = 0 ∧
    (generate_info 0 exampleStdout exampleMI true (strLit "video")).saved =
      some (strLit "video" ++ strLit "_fel_data.txt",
        (generate_info 0 exampleStdout exampleMI true (strLit "video")).printed) :=
  ⟨by decide, claim_c4_roundtrip 0 exampleStdout exampleMI (strLit "video") (by decide)⟩

/-- C6: on a container with zero video tracks, `detect_master_display` fails
with the no-video-track `ParseFelDataError`, and no raw `IndexError` ever
escapes `detect_master_display` for any container. -/
theorem claim_c6_no_video_track (mi : MediaInfoModel) :
    (mi.video_tracks = [] →
      detect_master_display mi =
        .error (.felError (strLit "Input file is lacking a \x27video track\x27"))) ∧
    ∀ m : PyStr, detect_master_display mi ≠ .error (.indexError m) := by
  constructor
  · intro h
    simp [detect_master_display, detect_body, h]
  · intro m
    unfold detect_master_display
    cases hb : detect_body mi with
    | ok v => simp
    | error e => cases e <;> simp

/-- C6 witness at the empty container. -/
theorem claim_c6_no_video_track_witness :
    detect_master_display ⟨[]⟩ =
      .error (.felError (strLit "Input file is lacking a \x27video track\x27")) :=
  (claim_c6_no_video_track ⟨[]⟩).1 rfl

/-- C7: whenever the parser or the deriver raises any error, no sidecar file
is written by `generate_info`. -/
theorem claim_c7_atomic_failure (returncode : Int) (toolStdout : PyStr) (mi : MediaInfoModel)
    (save : Bool) (stem : PyStr)
    (h : (∃ e, parse_dovi_tool_output returncode toolStdout = .error e) ∨
         (∃ e, detect_master_display mi = .error e)) :
    (generate_info returncode toolStdout mi save stem).saved = none := by
  have hh : ∀ e : PyExn, (handleErr e).saved = none := by intro e; cases e <;> rfl
  cases hp : parse_dovi_tool_output returncode toolStdout with
  | error e => simp [generate_info, hp, hh]
  | ok v =>
    obtain ⟨minL, maxL, cll, fall, summary⟩ := v
    cases hd : detect_master_display mi with
    | error e => simp [generate_info, hp, hd, hh]
    | ok w =>
      exfalso
      rcases h with ⟨e, he⟩ | ⟨e, he⟩
      · rw [hp] at he; exact Except.noConfusion he
      · rw [hd] at he; exact Except.noConfusion he

/-- C7 witness: a failing run writes nothing even with the save flag set. -/
theorem claim_c7_atomic_failure_witness :
    (generate_info 1 [] ⟨[]⟩ true []).saved = none :=
  claim_c7_atomic_failure 1 [] ⟨[]⟩ true []
    (Or.inl ⟨.felError (toolErrorMsg 1), rfl⟩)

/-- C9: when the first video track has a truthy color-primaries attribute but
a falsy mastering-display-luminance attribute, `detect_master_display` fails
with the `MediaInfo is lacking MDL values` error, so every run on such a
container exits with status 1 and writes no report. -/
theorem claim_c9_mdl_mandatory (track : VideoTrack) (rest : List VideoTrack)
    (hp : pyTruthyOpt track.mastering_display_color_primaries = true)
    (hl : pyTruthyOpt track.mastering_display_luminance = false) :
    detect_master_display ⟨track :: rest⟩ =
      .error (.felError (strLit "MediaInfo is lacking MDL values")) ∧
    ∀ (returncode : Int) (toolStdout : PyStr) (save : Bool) (stem : PyStr),
      (generate_info returncode toolStdout ⟨track :: rest⟩ save stem).exitCode = 1 ∧
      (generate_info returncode toolStdout ⟨track :: rest⟩ save stem).saved = none := by
  have hd : detect_master_display ⟨track :: rest⟩ =
      .error (.felError (strLit "MediaInfo is lacking MDL values")) := by
    simp [detect_master_display, detect_body, hp, hl]
  refine ⟨hd, ?_⟩
  intro rc out save stem
  cases hq : parse_dovi_tool_output rc out with
  | error e =>
    constructor <;> (simp only [generate_info, hq]; cases e <;> simp [handleErr])
  | ok v =>
    obtain ⟨a, b, c, d, s⟩ := v
    constructor <;> simp [generate_info, hq, hd, handleErr]

/-- C9 witness: supported primaries present but no luminance attribute. -/
theorem claim_c9_mdl_mandatory_witness :
    detect_master_display ⟨[⟨some (strLit "BT.2020"), none⟩]⟩ =
      .error (.felError (strLit "MediaInfo is lacking MDL values")) ∧
    (generate_info 0 [] ⟨[⟨some (strLit "BT.2020"), none⟩]⟩ true []).exitCode = 1 := by
  have h := claim_c9_mdl_mandatory ⟨some (strLit "BT.2020"), none⟩ [] (by decide) (by decide)
  exact ⟨h.1, (h.2 0 [] true []).1⟩

/-- C10: tool output with exit code zero but no `Summary:\n` marker makes
`parse_dovi_tool_output` raise a raw `IndexError`, which the top level
reports through the generic unexpected-error branch with exit status 1. -/
theorem claim_c10_missing_marker (toolStdout : PyStr) (mi : MediaInfoModel)
    (save : Bool) (stem : PyStr) (h : ¬ summaryMarker <:+: toolStdout) :
    parse_dovi_tool_output 0 toolStdout =
      .error (.indexError (strLit "list index out of range")) ∧
    generate_info 0 toolStdout mi save stem =
      ⟨strLit "There was an unexpected error: list index out of range", 1, none⟩ := by
  have hsp : summaryPart toolStdout = none := by
    unfold summaryPart
    rw [pySplit_no_marker _ _ h]
    rfl
  have hp : parse_dovi_tool_output 0 toolStdout =
      .error (.indexError (strLit "list index out of range")) := by
    simp [parse_dovi_tool_output, hsp]
  refine ⟨hp, ?_⟩
  rw [generate_info, hp]
  simp only [handleErr]
  decide

/-- C10 witness: output with no summary marker. -/
theorem claim_c10_missing_marker_witness :
    parse_dovi_tool_output 0 (strLit "Parsing RPU file...\nDone.") =
      .error (.indexError (strLit "list index out of range")) ∧
    generate_info 0 (strLit "Parsing RPU file...\nDone.") ⟨[]⟩ true [] =
      ⟨strLit "There was an unexpected error: list index out of range", 1, none⟩ :=
  claim_c10_missing_marker (strLit "Parsing RPU file...\nDone.") ⟨[]⟩ true [] (by decide)

/-- The C1 tool output: well-formed summary with minimum luma `0.0000`. -/
def c1Stdout : PyStr :=
  strLit "Parsing RPU file...\nSummary:\n  Profile: 7\n  RPU mastering display: 0.0000/1000.0000 nits\n  RPU content light level: MaxCLL: 1000 nits, MaxFALL: 400 nits\n"

/-- The trimmed summary text of `c1Stdout`. -/
def c1Summary : PyStr :=
  strLit "Profile: 7\nRPU mastering display: 0.0000/1000.0000 nits\nRPU content light level: MaxCLL: 1000 nits, MaxFALL: 400 nits"

/-- The incomplete-metadata message produced for `c1Stdout` (Python renders
the falsy `0.0` minimum luma as `Not Found`). -/
def c1IncompleteMsg : PyStr :=
  strLit "One or more of the values could not be detected from the input file (min-luma: Not Found, max-luma: 1000.0, max-cll: 1000.0, max-fall: 400.0)"

/-- C1 (amended): on tool output whose summary carries both marker lines and
whose patterns match with values `0.0`, `1000.0`, `1000.0`, `400.0`, the
parser does not succeed: the falsiness check treats the minimum luma `0.0`
as missing and raises the incomplete-metadata error naming min-luma as
`Not Found`. -/
theorem claim_c1_zero_min_luma (toolStdout part full_summary md cl : PyStr)
    (h1 : summaryPart toolStdout = some part)
    (h2 : scanSummary (pySplitlines (pyStrip part)) = (full_summary, md, cl))
    (h3 : md ≠ []) (h4 : cl ≠ [])
    (h5 : floatPair (reSearch dispPattern md) = .ok (some 0, some 1000))
    (h6 : floatPair (reSearch cllPattern cl) = .ok (some 1000, some 400)) :
    parse_dovi_tool_output 0 toolStdout = .error (.felError c1IncompleteMsg) := by
  have hmd : md.isEmpty = false := by
    cases md
    · exact absurd rfl h3
    · rfl
  have hcl : cl.isEmpty = false := by
    cases cl
    · exact absurd rfl h4
    · rfl
  have hfalsy : pyFalsy (some (0 : ℚ)) = true := by decide
  have hmsg : incompleteMsg (some 0) (some 1000) (some 1000) (some 400) = c1IncompleteMsg := by
    decide
  simp only [parse_dovi_tool_output, h1, h2, hmd, hcl, h5, h6, hfalsy]
  simp [hmsg]

set_option maxRecDepth 200000 in
/-- C1 witness: the amended theorem applied at the concrete output. -/
theorem claim_c1_zero_min_luma_witness :
    parse_dovi_tool_output 0 c1Stdout = .error (.felError c1IncompleteMsg) :=
  claim_c1_zero_min_luma c1Stdout
    (strLit "  Profile: 7\n  RPU mastering display: 0.0000/1000.0000 nits\n  RPU content light level: MaxCLL: 1000 nits, MaxFALL: 400 nits\n")
    (strLit "Profile: 7\nRPU mastering display: 0.0000/1000.0000 nits\nRPU content light level: MaxCLL: 1000 nits, MaxFALL: 400 nits\n")
    (strLit "RPU mastering display: 0.0000/1000.0000 nits")
    (strLit "RPU content light level: MaxCLL: 1000 nits, MaxFALL: 400 nits")
    rfl rfl (by decide) (by decide) rfl rfl

set_option maxRecDepth 200000 in
/-- C1 counterexample: on the claim's well-formed output with minimum luma
`0.0000`, the parser raises the incomplete-metadata error instead of
returning `(0, 10000000, 1000, 400, <summary>)`. -/
theorem claim_c1_counterexample :
    parse_dovi_tool_output 0 c1Stdout = .error (.felError c1IncompleteMsg) ∧
    parse_dovi_tool_output 0 c1Stdout ≠ .ok (0, 10000000, 1000, 400, c1Summary) := by
  have h1 : parse_dovi_tool_output 0 c1Stdout = .error (.felError c1IncompleteMsg) := rfl
  refine ⟨h1, fun h => ?_⟩
  rw [h] at h1
  exact Except.noConfusion h1

/-- C2 (amended): when the first video track has a truthy color-primaries
attribute and a luminance attribute that matches the MDL pattern with both
groups converting to floats, `detect_master_display` matches the lowercased
primaries in the precedence order `display p3`, `dci p3`, `bt.2020`, returns
the corresponding fixed template with the floored scaled luminance pair, and
otherwise fails with the unsupported-primaries error. -/
theorem claim_c2_precedence (track : VideoTrack) (rest : List VideoTrack)
    (caps : List PyStr) (q1 q2 : ℚ)
    (hp : pyTruthyOpt track.mastering_display_color_primaries = true)
    (hl : pyTruthyOpt track.mastering_display_luminance = true)
    (hre : reSearch mdlPattern (track.mastering_display_luminance.getD []) = some caps)
    (hq1 : pyFloat (caps.getD 0 []) = some q1)
    (hq2 : pyFloat (caps.getD 1 []) = some q2) :
    (containsSub (strLit "display p3")
        (pyToLower (track.mastering_display_color_primaries.getD [])) = true →
      detect_master_display ⟨track :: rest⟩ =
        .ok (displayP3Template, floorTimes10000 q1, floorTimes10000 q2)) ∧
    (containsSub (strLit "display p3")
        (pyToLower (track.mastering_display_color_primaries.getD [])) = false →
      containsSub (strLit "dci p3")
        (pyToLower (track.mastering_display_color_primaries.getD [])) = true →
      detect_master_display ⟨track :: rest⟩ =
        .ok (dciP3Template, floorTimes10000 q1, floorTimes10000 q2)) ∧
    (containsSub (strLit "display p3")
        (pyToLower (track.mastering_display_color_primaries.getD [])) = false →
      containsSub (strLit "dci p3")
        (pyToLower (track.mastering_display_color_primaries.getD [])) = false →
      containsSub (strLit "bt.2020")
        (pyToLower (track.mastering_display_color_primaries.getD [])) = true →
      detect_master_display ⟨track :: rest⟩ =
        .ok (bt2020Template, floorTimes10000 q1, floorTimes10000 q2)) ∧
    (containsSub (strLit "display p3")
        (pyToLower (track.mastering_display_color_primaries.getD [])) = false →
      containsSub (strLit "dci p3")
        (pyToLower (track.mastering_display_color_primaries.getD [])) = false →
      containsSub (strLit "bt.2020")
        (pyToLower (track.mastering_display_color_primaries.getD [])) = false →
      detect_master_display ⟨track :: rest⟩ =
        .error (.felError (strLit "Video doesn\x27t appear to need a master-display string..."))) := by
  have hq1' : pyFloat (caps[0]?.getD []) = some q1 := by
    simpa only [List.getD_eq_getElem?_getD] using hq1
  have hq2' : pyFloat (caps[1]?.getD []) = some q2 := by
    simpa only [List.getD_eq_getElem?_getD] using hq2
  have hbody : detect_body ⟨track :: rest⟩ =
      choose_master_display (pyToLower (track.mastering_display_color_primaries.getD []))
        (floorTimes10000 q1) (floorTimes10000 q2) := by
    simp [detect_body, hp, hl, hre, hq1', hq2']
  refine ⟨?_, ?_, ?_, ?_⟩
  · intro hs1
    simp [detect_master_display, hbody, choose_master_display, hs1]
  · intro hs1 hs2
    simp [detect_master_display, hbody, choose_master_display, hs1, hs2]
  · intro hs1 hs2 hs3
    simp [detect_master_display, hbody, choose_master_display, hs1, hs2, hs3]
  · intro hs1 hs2 hs3
    simp [detect_master_display, hbody, choose_master_display, hs1, hs2, hs3]

/-- C2 witness: a casing variant of `display p3` with a valid MDL attribute
maps to the DisplayP3 template with the floored, scaled luminance pair. -/
theorem claim_c2_precedence_witness :
    detect_master_display
        ⟨[⟨some (strLit "Display P3 variant"), some (strLit "min: 0.0050 cd/m2, max: 1000 cd/m2")⟩]⟩ =
      .ok (displayP3Template, 50, 10000000) := by
  have h := claim_c2_precedence
    ⟨some (strLit "Display P3 variant"), some (strLit "min: 0.0050 cd/m2, max: 1000 cd/m2")⟩ []
    [strLit "0.0050", strLit "1000"] (mkRat 1 200) 1000
    (by decide) (by decide) rfl rfl rfl
  have e1 : floorTimes10000 (mkRat 1 200) = 50 := by decide
  have e2 : floorTimes10000 (1000 : ℚ) = 10000000 := by decide
  rw [← e1, ← e2]
  exact h.1 (by decide)

/-- C2 counterexample: a track with non-empty primaries containing
`display p3` but no luminance attribute is rejected with the MDL error, not
mapped to the DisplayP3 template. -/
theorem claim_c2_counterexample :
    detect_master_display ⟨[⟨some (strLit "Display P3"), none⟩]⟩ =
      .error (.felError (strLit "MediaInfo is lacking MDL values")) := rfl

/-- C8 (amended): on tool output with exit code zero whose summary carries
both marker lines, whose mastering-display values (if matched) convert to
floats, and whose content-light-level line does not match the
`MaxCLL/MaxFALL` pattern, the parser fails with the incomplete-metadata
error, whose message ends with `max-fall: Not Found)`. -/
theorem claim_c8_missing_maxfall (toolStdout part full_summary md cl : PyStr)
    (minQ maxQ : Option ℚ)
    (h1 : summaryPart toolStdout = some part)
    (h2 : scanSummary (pySplitlines (pyStrip part)) = (full_summary, md, cl))
    (h3 : md ≠ []) (h4 : cl ≠ [])
    (h5 : floatPair (reSearch dispPattern md) = .ok (minQ, maxQ))
    (h6 : reSearch cllPattern cl = none) :
    parse_dovi_tool_output 0 toolStdout =
      .error (.felError (incompleteMsg minQ maxQ none none)) ∧
    strLit "max-fall: Not Found)" <:+ incompleteMsg minQ maxQ none none := by
  have hmd : md.isEmpty = false := by
    cases md
    · exact absurd rfl h3
    · rfl
  have hcl : cl.isEmpty = false := by
    cases cl
    · exact absurd rfl h4
    · rfl
  constructor
  · have hfnone : floatPair (none : Option (List PyStr)) = .ok (none, none) := rfl
    have hfalsy : pyFalsy (none : Option ℚ) = true := rfl
    simp only [parse_dovi_tool_output, h1, h2, hmd, hcl, h5, h6, hfnone, hfalsy]
    simp
  · refine ⟨strLit "One or more of the values could not be detected from the input file (min-luma: " ++
      renderVal minQ ++ strLit ", max-luma: " ++ renderVal maxQ ++ strLit ", max-cll: Not Found, ", ?_⟩
    have er : renderVal none = strLit "Not Found" := rfl
    rw [incompleteMsg, er]
    simp only [List.append_assoc, List.append_right_inj]
    decide

/-- Tool output for the C8 witness: the content-light-level line lacks the
`MaxFALL` token. -/
def c8Stdout : PyStr :=
  strLit "Summary:\nRPU mastering display: 0.0050/1000.0000 nits\nRPU content light level: MaxCLL: 1000 nits\n"

/-- The incomplete-metadata message produced for `c8Stdout`. -/
def c8Msg : PyStr :=
  strLit "One or more of the values could not be detected from the input file (min-luma: 0.005, max-luma: 1000.0, max-cll: Not Found, max-fall: Not Found)"

/-- C8 witness: the amended theorem applied at the concrete output. -/
theorem claim_c8_missing_maxfall_witness :
    parse_dovi_tool_output 0 c8Stdout = .error (.felError c8Msg) ∧
    strLit "max-fall: Not Found)" <:+ c8Msg := by
  have h := claim_c8_missing_maxfall c8Stdout
    (strLit "RPU mastering display: 0.0050/1000.0000 nits\nRPU content light level: MaxCLL: 1000 nits\n")
    (strLit "RPU mastering display: 0.0050/1000.0000 nits\nRPU content light level: MaxCLL: 1000 nits\n")
    (strLit "RPU mastering display: 0.0050/1000.0000 nits")
    (strLit "RPU content light level: MaxCLL: 1000 nits")
    (some (mkRat 1 200)) (some 1000)
    rfl rfl (by decide) (by decide) rfl rfl
  have e : incompleteMsg (some (mkRat 1 200)) (some 1000) none none = c8Msg := by decide
  rw [e] at h
  exact h

/-- C8 counterexample: output whose content-light-level marker line fails
the pattern but whose mastering-display marker line is absent produces the
missing-summary-sections error, which does not name `max-fall`. -/
theorem claim_c8_counterexample :
    parse_dovi_tool_output 0 (strLit "Summary:\nRPU content light level: MaxCLL: 1000 nits\n") =
      .error (.felError (strLit "Failed to detect \x27RPU mastering display\x27 or \x27RPU content light level\x27")) ∧
    containsSub (strLit "max-fall")
      (strLit "Failed to detect \x27RPU mastering display\x27 or \x27RPU content light level\x27") = false ∧
    reSearch cllPattern (strLit "RPU content light level: MaxCLL: 1000 nits") = none :=
  ⟨rfl, by decide, rfl⟩

/-- C5 (amended): on every successful run whose tool summary does not itself
contain the warning line, the composed report contains the literal warning
line if and only if the container-derived pair differs from the RPU-derived
pair in at least one component. -/
theorem claim_c5_warning_iff (returncode : Int) (toolStdout : PyStr) (mi : MediaInfoModel)
    (save : Bool) (stem : PyStr) (minL maxL cll fall : Int) (summary tpl : PyStr) (lo hi : Int)
    (hp : parse_dovi_tool_output returncode toolStdout = .ok (minL, maxL, cll, fall, summary))
    (hd : detect_master_display mi = .ok (tpl, lo, hi))
    (hs : ¬ warningLine <:+: summary) :
    (warningLine <:+: (generate_info returncode toolStdout mi save stem).printed ↔
      minL ≠ lo ∨ maxL ≠ hi) := by
  constructor
  · intro h
    by_contra hne
    have hprint : (generate_info returncode toolStdout mi save stem).printed =
        final_str_format summary (mi_rpu_diff_base lo hi minL maxL) cll fall
          (pyFormat_master_display tpl maxL minL) := by
      simp [generate_info, hp, hd, hne]
    rw [hprint] at h
    have hm : 'w' ∉ pyFormat_master_display tpl maxL minL := by
      intro hmem
      rcases pyFormat_master_display_chars tpl maxL minL 'w' hmem with h1 | h1 | h1
      · rcases detect_template mi tpl lo hi hd with ht | ht | ht <;> rw [ht] at h1 <;>
          exact absurd h1 (by decide)
      · exact intChars_ne_w _ h1
      · exact intChars_ne_w _ h1
    exact no_warning_when_equal summary _ lo hi minL maxL cll fall hs hm h
  · intro hne
    have hprint : (generate_info returncode toolStdout mi save stem).printed =
        final_str_format summary (mi_rpu_diff_base lo hi minL maxL ++ '\n' :: warningLine)
          cll fall (pyFormat_master_display tpl maxL minL) := by
      simp [generate_info, hp, hd, hne]
    rw [hprint]
    exact ⟨strLit "Dovi_tool Summary:\n" ++ summary ++ strLit "\n\nMediaInfo/RPU Luminance:\n" ++
        mi_rpu_diff_base lo hi minL maxL ++ ['\n'],
      strLit "\n\nGenerated Values:\nMaximum CLL: " ++ intChars cll ++
        strLit "\nMaximum FALL: " ++ intChars fall ++ strLit "\nMaster Display: " ++
        pyFormat_master_display tpl maxL minL,
      by simp [final_str_format, List.append_assoc]⟩

set_option maxRecDepth 200000 in
/-- C5 witness: a successful run with differing pairs contains the
warning line. -/
theorem claim_c5_warning_iff_witness :
    warningLine <:+: (generate_info 0 exampleStdout exampleDiffMI false []).printed := by
  have h := claim_c5_warning_iff 0 exampleStdout exampleDiffMI false [] 50 10000000 1000 400
    exampleSummary bt2020Template 1 40000000 rfl rfl (by decide)
  exact h.mpr (by decide)

/-- The C5 counterexample tool output: a well-formed summary that also
carries a verbatim copy of the warning line as an extra summary line. -/
def c5Stdout : PyStr :=
  strLit "Summary:\nRPU mastering display: 0.0050/1000.0000 nits\nRPU content light level: MaxCLL: 1000 nits, MaxFALL: 400 nits\n(detected a difference, be sure to use the \x27Generated Values\x27 below)\n"

/-- The trimmed summary text of `c5Stdout` (it contains the warning line). -/
def c5Summary : PyStr :=
  strLit "RPU mastering display: 0.0050/1000.0000 nits\nRPU content light level: MaxCLL: 1000 nits, MaxFALL: 400 nits\n(detected a difference, be sure to use the \x27Generated Values\x27 below)"

set_option maxRecDepth 400000 in
/-- C5 counterexample: a successful run whose container pair `(50, 10000000)`
equals the RPU pair, yet the composed report contains the warning line
(injected through the tool summary), refuting the claimed equivalence. -/
theorem claim_c5_counterexample :
    parse_dovi_tool_output 0 c5Stdout = .ok (50, 10000000, 1000, 400, c5Summary) ∧
    detect_master_display exampleMI = .ok (bt2020Template, 50, 10000000) ∧
    warningLine <:+: (generate_info 0 c5Stdout exampleMI false []).printed := by
  refine ⟨rfl, rfl, ?_⟩
  exact ⟨strLit "Dovi_tool Summary:\nRPU mastering display: 0.0050/1000.0000 nits\nRPU content light level: MaxCLL: 1000 nits, MaxFALL: 400 nits\n",
    strLit "\n\nMediaInfo/RPU Luminance:\nMediaInfo: 50/10000000\nRPU: 50/10000000\n\nGenerated Values:\nMaximum CLL: 1000\nMaximum FALL: 400\nMaster Display: G(8500,39850)B(6550,2300)R(35400,14600)WP(15635,16450)L(10000000,50)",
    by decide⟩
